import Mathlib

/-!
# Verification of the qibo gate/channel layer specification

This file gives a shallow embedding of the gate abstraction implemented in
`src/qibo/base/gates.py` and of the channel application methods implemented in
`src/qibo/tensorflow/cgates.py`, and proves (or refutes) the frozen claims
about them.

Modelling conventions:

* Python exceptions are modelled by `Except PyError`, where `PyError` records
  the exception class (`ValueError`, `RuntimeError`, ...) and the message.
  Messages are reproduced from the source format strings; the only elision is
  `format(self)`, which in Python prints the object repr (class and memory
  address): the gate's `name` attribute stands in for it, and no claim
  depends on those particular messages beyond the exception class.
* Python tuples of qubit ids become `List ℕ`, Python sets become `Finset ℕ`.
* Gate angles are Python floats, and the only angle constant ever introduced
  by the code itself is `np.pi` (in `U2._dagger` / `CU2._dagger`).  Angles are
  therefore represented exactly as `a + b·π` with `a b : ℚ` (`Angle` below):
  every float is a rational, so this subring contains every value the code
  can compute, and all operations stay decidable.
* Probabilities and random draws are Python floats, embedded as `ℚ`.
* Dense matrices are `Matrix (Fin d) (Fin d) ℂ`.  Applying a gate with matrix
  `U` to a density matrix `ρ` via the custom kernels
  (`MatrixGate._density_matrix_call`: the matrix on the row half of the index
  space, the conjugated matrix on the column half) computes `U * ρ * Uᴴ`;
  applying it to a state vector computes `U.mulVec v`.  The channel methods
  are modelled at this level, which is the level the claims are stated at.
-/

deriving instance DecidableEq for Except

/-- Exception class of a raised Python error. -/
inductive PyErrorKind where
  | valueError
  | runtimeError
  | notImplementedError
  | typeError
  | indexError
deriving DecidableEq

/-- A raised Python exception: its class together with its message. -/
structure PyError where
  kind : PyErrorKind
  msg : String
deriving DecidableEq

/-- Exact representation of a gate angle as `ratPart + piPart * π`.
Floats are rationals, and the only non-float angle the code ever builds is
`np.pi` in `U2._dagger`/`CU2._dagger`, so this subring is closed under every
angle operation in the source. -/
structure Angle where
  ratPart : ℚ
  piPart : ℚ
deriving DecidableEq

/-- Negation of an angle (`-theta`). -/
def Angle.neg (t : Angle) : Angle := ⟨-t.ratPart, -t.piPart⟩

/-- `np.pi - theta`, as computed in `U2._dagger` for the new `phi`. -/
def Angle.piSub (t : Angle) : Angle := ⟨-t.ratPart, 1 - t.piPart⟩

/-- `-np.pi - theta`, as computed in `U2._dagger` for the new `lam`. -/
def Angle.negPiSub (t : Angle) : Angle := ⟨-t.ratPart, -1 - t.piPart⟩

/-- The Python class of a gate object, with its scalar parameters
(`init_kwargs`).  Channel classes carry their class name; their channel
payload (probabilities and operator list) is modelled separately by
`UChannel`. -/
inductive GateClass where
  | h
  | x
  | y
  | z
  | iden
  | collapse
  | rx (theta : Angle)
  | ry (theta : Angle)
  | rz (theta : Angle)
  | u1 (theta : Angle)
  | u2 (phi lam : Angle)
  | u3 (theta phi lam : Angle)
  | cnot
  | cz
  | swap
  | toffoli
  | crx (theta : Angle)
  | cry (theta : Angle)
  | crz (theta : Angle)
  | cu1 (theta : Angle)
  | cu2 (phi lam : Angle)
  | cu3 (theta phi lam : Angle)
  | channelOf (cname : String)
deriving DecidableEq

/-- Python class name of a gate class; two gate objects have
`self.__class__ == gate.__class__` exactly when their tags coincide. -/
def GateClass.tag : GateClass → String
  | .h => "H"
  | .x => "X"
  | .y => "Y"
  | .z => "Z"
  | .iden => "I"
  | .collapse => "Collapse"
  | .rx _ => "RX"
  | .ry _ => "RY"
  | .rz _ => "RZ"
  | .u1 _ => "U1"
  | .u2 _ _ => "U2"
  | .u3 _ _ _ => "U3"
  | .cnot => "CNOT"
  | .cz => "CZ"
  | .swap => "SWAP"
  | .toffoli => "TOFFOLI"
  | .crx _ => "CRX"
  | .cry _ => "CRY"
  | .crz _ => "CRZ"
  | .cu1 _ => "CU1"
  | .cu2 _ _ => "CU2"
  | .cu3 _ _ _ => "CU3"
  | .channelOf cname => cname

/-- The state of a `qibo.base.gates.Gate` object: the fields set by
`Gate.__init__` plus the class (with its scalar parameters) and the integer
`init_args` used by `_dagger`/`decompose` reconstruction.  The lazily cached
`_unitary` attribute is modelled separately by `GateU` (claim C7 only). -/
structure PyGate where
  klass : GateClass
  name : String
  isPrepared : Bool
  isControlledBy : Bool
  targetQubits : List ℕ
  controlQubits : Finset ℕ
  nqubitsF : Option ℕ
  nstatesF : Option ℕ
  initArgs : List ℕ
deriving DecidableEq

/-- A fresh gate object right after `Gate.__init__` ran and the subclass
assigned `self.name`. -/
def gateNew (k : GateClass) (nm : String) : PyGate :=
  { klass := k, name := nm, isPrepared := false, isControlledBy := false,
    targetQubits := [], controlQubits := ∅, nqubitsF := none,
    nstatesF := none, initArgs := [] }

/-- `Gate._find_repeated`: the first qubit id repeated in the sequence
(`None` when there is none). -/
def findRepeated (qubits : List ℕ) : Option ℕ :=
  go qubits ∅
where
  go : List ℕ → Finset ℕ → Option ℕ
    | [], _ => none
    | q :: rest, seen => if q ∈ seen then some q else go rest (insert q seen)

/-- Rendering of an `Option ℕ` the way Python `format` prints the result of
`_find_repeated` (an int, or `None`). -/
def optNatStr : Option ℕ → String
  | none => "None"
  | some q => toString q

/-- Rendering of a Python set of qubit ids (sorted ascending, braces). -/
def finsetStr (s : Finset ℕ) : String :=
  "\x7b" ++ String.intercalate ", " ((s.sort (· ≤ ·)).map toString) ++ "\x7d"

/-- Message of the duplicate-target `ValueError`
(`"Target qubit {} was given twice for gate {}."`). -/
def targetDupMsg (r : Option ℕ) (nm : String) : String :=
  "Target qubit " ++ optNatStr r ++ " was given twice for gate " ++ nm ++ "."

/-- Message of the duplicate-control `ValueError`
(`"Control qubit {} was given twice for gate {}."`). -/
def controlDupMsg (r : Option ℕ) (nm : String) : String :=
  "Control qubit " ++ optNatStr r ++ " was given twice for gate " ++ nm ++ "."

/-- Message of the target/control overlap `ValueError`
(`"{} qubits are both targets and controls for gate {}."`). -/
def overlapMsg (common : Finset ℕ) (nm : String) : String :=
  finsetStr common ++ " qubits are both targets and controls for gate "
    ++ nm ++ "."

/-- `Gate._set_target_qubits`: stores the tuple, then raises a `ValueError`
naming the first repeated qubit if the sequence contains duplicates
(`len(self._target_qubits) != len(set(qubits))`). -/
def setTargetQubitsH (g : PyGate) (qs : List ℕ) : Except PyError PyGate :=
  let g1 := { g with targetQubits := qs }
  if g1.targetQubits.length ≠ qs.toFinset.card then
    .error ⟨.valueError, targetDupMsg (findRepeated qs) g.name⟩
  else
    .ok g1

/-- `Gate._set_control_qubits`: stores the set, then raises a `ValueError`
naming the first repeated qubit if the sequence contains duplicates
(`len(self._control_qubits) != len(qubits)`). -/
def setControlQubitsH (g : PyGate) (qs : List ℕ) : Except PyError PyGate :=
  let g1 := { g with controlQubits := qs.toFinset }
  if g1.controlQubits.card ≠ qs.length then
    .error ⟨.valueError, controlDupMsg (findRepeated qs) g.name⟩
  else
    .ok g1

/-- `Gate._check_control_target_overlap`: raises a `ValueError` naming the
common qubits when a qubit is both a target and a control. -/
def checkControlTargetOverlap (g : PyGate) : Except PyError Unit :=
  let common := g.targetQubits.toFinset ∩ g.controlQubits
  if common ≠ ∅ then
    .error ⟨.valueError, overlapMsg common g.name⟩
  else
    .ok ()

/-- The `target_qubits` property setter: `_set_target_qubits` followed by
`_check_control_target_overlap`. -/
def targetSetter (g : PyGate) (qs : List ℕ) : Except PyError PyGate := do
  let g1 ← setTargetQubitsH g qs
  let _ ← checkControlTargetOverlap g1
  .ok g1

/-- The `control_qubits` property setter: `_set_control_qubits` followed by
`_check_control_target_overlap`. -/
def controlSetter (g : PyGate) (qs : List ℕ) : Except PyError PyGate := do
  let g1 ← setControlQubitsH g qs
  let _ ← checkControlTargetOverlap g1
  .ok g1

/-- `Gate.set_targets_and_controls`: both raw setters, then one overlap
check. -/
def setTargetsAndControls (g : PyGate) (tq cq : List ℕ) :
    Except PyError PyGate := do
  let g1 ← setTargetQubitsH g tq
  let g2 ← setControlQubitsH g1 cq
  let _ ← checkControlTargetOverlap g2
  .ok g2

/-- The `control_qubits` property getter: the control set as a tuple sorted
in increasing order. -/
def controlQubitsProp (g : PyGate) : List ℕ :=
  g.controlQubits.sort (· ≤ ·)

/-- The `qubits` property: `control_qubits + target_qubits` (tuple
concatenation). -/
def gateQubits (g : PyGate) : List ℕ :=
  controlQubitsProp g ++ g.targetQubits

/-- Records `init_args` on a successfully constructed gate (Python stores
them after the qubit setters ran). -/
def withInitArgs (a : List ℕ) (r : Except PyError PyGate) :
    Except PyError PyGate :=
  r.map fun g => { g with initArgs := a }

/-- `H.__init__`. -/
def initH (q : ℕ) : Except PyError PyGate :=
  withInitArgs [q] (targetSetter (gateNew .h "h") [q])

/-- `X.__init__`. -/
def initX (q : ℕ) : Except PyError PyGate :=
  withInitArgs [q] (targetSetter (gateNew .x "x") [q])

/-- `Y.__init__`. -/
def initY (q : ℕ) : Except PyError PyGate :=
  withInitArgs [q] (targetSetter (gateNew .y "y") [q])

/-- `Z.__init__`. -/
def initZ (q : ℕ) : Except PyError PyGate :=
  withInitArgs [q] (targetSetter (gateNew .z "z") [q])

/-- `I.__init__` (takes any number of target qubits). -/
def initI (qs : List ℕ) : Except PyError PyGate :=
  withInitArgs qs (targetSetter (gateNew .iden "identity") qs)

/-- `Collapse.__init__` with its default `result=0` (the only form the
claims exercise; the per-qubit result values, all `0`, pass the result
setter's `{0, 1}` membership check and play no further role here). -/
def initCollapse (qs : List ℕ) : Except PyError PyGate :=
  withInitArgs qs (targetSetter (gateNew .collapse "collapse") qs)

/-- `RX.__init__`. -/
def initRX (q : ℕ) (theta : Angle) : Except PyError PyGate :=
  withInitArgs [q] (targetSetter (gateNew (.rx theta) "rx") [q])

/-- `RY.__init__`. -/
def initRY (q : ℕ) (theta : Angle) : Except PyError PyGate :=
  withInitArgs [q] (targetSetter (gateNew (.ry theta) "ry") [q])

/-- `RZ.__init__`. -/
def initRZ (q : ℕ) (theta : Angle) : Except PyError PyGate :=
  withInitArgs [q] (targetSetter (gateNew (.rz theta) "rz") [q])

/-- `U1.__init__`. -/
def initU1 (q : ℕ) (theta : Angle) : Except PyError PyGate :=
  withInitArgs [q] (targetSetter (gateNew (.u1 theta) "u1") [q])

/-- `U2.__init__`. -/
def initU2 (q : ℕ) (phi lam : Angle) : Except PyError PyGate :=
  withInitArgs [q] (targetSetter (gateNew (.u2 phi lam) "u2") [q])

/-- `U3.__init__`. -/
def initU3 (q : ℕ) (theta phi lam : Angle) : Except PyError PyGate :=
  withInitArgs [q] (targetSetter (gateNew (.u3 theta phi lam) "u3") [q])

/-- Shared layout of the `__init__` of every gate with one control and one
target qubit (`CNOT`, `CZ`, `_CRn_`, `_CUn_`): control qubit setter, then
target qubit setter. -/
def initControlled1 (k : GateClass) (nm : String) (q0 q1 : ℕ) :
    Except PyError PyGate :=
  withInitArgs [q0, q1] (do
    let g1 ← controlSetter (gateNew k nm) [q0]
    targetSetter g1 [q1])

/-- `CNOT.__init__`. -/
def initCNOT (q0 q1 : ℕ) : Except PyError PyGate :=
  initControlled1 .cnot "cx" q0 q1

/-- `CZ.__init__`. -/
def initCZ (q0 q1 : ℕ) : Except PyError PyGate :=
  initControlled1 .cz "cz" q0 q1

/-- `SWAP.__init__`. -/
def initSWAP (q0 q1 : ℕ) : Except PyError PyGate :=
  withInitArgs [q0, q1] (targetSetter (gateNew .swap "swap") [q0, q1])

/-- `TOFFOLI.__init__`: two controls, then the target. -/
def initTOFFOLI (q0 q1 q2 : ℕ) : Except PyError PyGate :=
  withInitArgs [q0, q1, q2] (do
    let g1 ← controlSetter (gateNew .toffoli "ccx") [q0, q1]
    targetSetter g1 [q2])

/-- `CRX.__init__`. -/
def initCRX (q0 q1 : ℕ) (theta : Angle) : Except PyError PyGate :=
  initControlled1 (.crx theta) "crx" q0 q1

/-- `CRY.__init__`. -/
def initCRY (q0 q1 : ℕ) (theta : Angle) : Except PyError PyGate :=
  initControlled1 (.cry theta) "cry" q0 q1

/-- `CRZ.__init__`. -/
def initCRZ (q0 q1 : ℕ) (theta : Angle) : Except PyError PyGate :=
  initControlled1 (.crz theta) "crz" q0 q1

/-- `CU1.__init__`. -/
def initCU1 (q0 q1 : ℕ) (theta : Angle) : Except PyError PyGate :=
  initControlled1 (.cu1 theta) "cu1" q0 q1

/-- `CU2.__init__`. -/
def initCU2 (q0 q1 : ℕ) (phi lam : Angle) : Except PyError PyGate :=
  initControlled1 (.cu2 phi lam) "cu2" q0 q1

/-- `CU3.__init__`. -/
def initCU3 (q0 q1 : ℕ) (theta phi lam : Angle) : Except PyError PyGate :=
  initControlled1 (.cu3 theta phi lam) "cu3" q0 q1

/-- `Gate.commutes`: `a` is class equality together with equality of the
target sets; `b` is emptiness of both `t1 ∩ set(gate.qubits)` and
`t2 ∩ set(self.qubits)` (Python set truthiness); the result is `a or b`. -/
def commutes (g1 g2 : PyGate) : Bool :=
  let t1 := g1.targetQubits.toFinset
  let t2 := g2.targetQubits.toFinset
  let a := decide (g1.klass.tag = g2.klass.tag) && decide (t1 = t2)
  let b := !(decide (t1 ∩ (gateQubits g2).toFinset ≠ ∅)
              || decide (t2 ∩ (gateQubits g1).toFinset ≠ ∅))
  a || b

/-- `Gate.nqubits` property getter: `ValueError` while unset. -/
def nqubitsGetter (g : PyGate) : Except PyError ℕ :=
  match g.nqubitsF with
  | none => .error ⟨.valueError, "Accessing number of qubits for gate "
      ++ g.name ++ " but this is not yet set."⟩
  | some n => .ok n

/-- `Gate.nstates` property getter: `ValueError` while unset. -/
def nstatesGetter (g : PyGate) : Except PyError ℕ :=
  match g.nstatesF with
  | none => .error ⟨.valueError, "Accessing number of qubits for gate "
      ++ g.name ++ " but this is not yet set."⟩
  | some n => .ok n

/-- `Gate.nqubits` property setter: `RuntimeError` naming the already
assigned value if set twice, otherwise stores `n` and `2 ** n`. -/
def nqubitsSetter (g : PyGate) (n : ℕ) : Except PyError PyGate :=
  match g.nqubitsF with
  | some m => .error ⟨.runtimeError, "The number of qubits for this gates is "
      ++ "set to " ++ toString m ++ "."⟩
  | none => .ok { g with nqubitsF := some n, nstatesF := some (2 ^ n) }

/-- `Gate.controlled_by` (the base method): rejects an already controlled or
already prepared gate with a `RuntimeError`, and only if some qubits were
actually passed sets the flag and runs the control setter; with no arguments
the gate is returned unchanged. -/
def baseControlledBy (g : PyGate) (qs : List ℕ) : Except PyError PyGate :=
  if g.controlQubits ≠ ∅ then
    .error ⟨.runtimeError, "Cannot use controlled_by method on gate "
      ++ g.name ++ " because it is already controlled by "
      ++ finsetStr g.controlQubits ++ "."⟩
  else if g.isPrepared then
    .error ⟨.runtimeError, "Cannot use controlled_by on a prepared gate."⟩
  else if qs ≠ [] then
    controlSetter { g with isControlledBy := true } qs
  else
    .ok g

/-- `controlled_by` with the class-specific overrides: `X` falls back to
`CNOT`/`TOFFOLI` for one/two controls, `Z` to `CZ` for one control,
`_Rn_`/`_Un_` to the dedicated controlled class for one control, `Collapse`
cannot be controlled, channels cannot be controlled; every other case is the
base method. -/
def gateControlledBy (g : PyGate) (qs : List ℕ) : Except PyError PyGate :=
  let t0 := g.targetQubits.getD 0 0
  match g.klass with
  | .x =>
      if qs.length = 1 then initCNOT (qs.getD 0 0) t0
      else if qs.length = 2 then initTOFFOLI (qs.getD 0 0) (qs.getD 1 0) t0
      else baseControlledBy g qs
  | .z =>
      if qs.length = 1 then initCZ (qs.getD 0 0) t0
      else baseControlledBy g qs
  | .rx theta =>
      if qs.length = 1 then initCRX (qs.getD 0 0) t0 theta
      else baseControlledBy g qs
  | .ry theta =>
      if qs.length = 1 then initCRY (qs.getD 0 0) t0 theta
      else baseControlledBy g qs
  | .rz theta =>
      if qs.length = 1 then initCRZ (qs.getD 0 0) t0 theta
      else baseControlledBy g qs
  | .u1 theta =>
      if qs.length = 1 then initCU1 (qs.getD 0 0) t0 theta
      else baseControlledBy g qs
  | .u2 phi lam =>
      if qs.length = 1 then initCU2 (qs.getD 0 0) t0 phi lam
      else baseControlledBy g qs
  | .u3 theta phi lam =>
      if qs.length = 1 then initCU3 (qs.getD 0 0) t0 theta phi lam
      else baseControlledBy g qs
  | .collapse =>
      .error ⟨.notImplementedError, "Collapse gates cannot be controlled."⟩
  | .channelOf _ =>
      .error ⟨.valueError, "Noise channel cannot be controlled on qubits."⟩
  | _ => baseControlledBy g qs

/-- `_dagger` of each gate class.  Rotation classes negate their angles
(`U2`/`CU2` use `pi - lam` and `-pi - phi`; `U3`/`CU3` negate and swap `phi`
with `lam`); every class without an override runs the base
`Gate._dagger`, which reconstructs the gate from `init_args` and
`init_kwargs`.  For channel classes that base reconstruction rebuilds the
channel from its stored operators, giving the same target set and no
controls. -/
def gateDaggerUnder (g : PyGate) : Except PyError PyGate :=
  let a := g.initArgs
  let t0 := g.targetQubits.getD 0 0
  let c0 := (controlQubitsProp g).getD 0 0
  match g.klass with
  | .h => initH (a.getD 0 0)
  | .x => initX (a.getD 0 0)
  | .y => initY (a.getD 0 0)
  | .z => initZ (a.getD 0 0)
  | .iden => initI a
  | .collapse => initCollapse a
  | .rx theta => initRX t0 (Angle.neg theta)
  | .ry theta => initRY t0 (Angle.neg theta)
  | .rz theta => initRZ t0 (Angle.neg theta)
  | .u1 theta => initU1 t0 (Angle.neg theta)
  | .u2 phi lam => initU2 t0 (Angle.piSub lam) (Angle.negPiSub phi)
  | .u3 theta phi lam => initU3 t0 (Angle.neg theta) (Angle.neg lam)
      (Angle.neg phi)
  | .cnot => initCNOT (a.getD 0 0) (a.getD 1 0)
  | .cz => initCZ (a.getD 0 0) (a.getD 1 0)
  | .swap => initSWAP (a.getD 0 0) (a.getD 1 0)
  | .toffoli => initTOFFOLI (a.getD 0 0) (a.getD 1 0) (a.getD 2 0)
  | .crx theta => initCRX c0 t0 (Angle.neg theta)
  | .cry theta => initCRY c0 t0 (Angle.neg theta)
  | .crz theta => initCRZ c0 t0 (Angle.neg theta)
  | .cu1 theta => initCU1 c0 t0 (Angle.neg theta)
  | .cu2 phi lam => initCU2 c0 t0 (Angle.piSub lam) (Angle.negPiSub phi)
  | .cu3 theta phi lam => initCU3 c0 t0 (Angle.neg theta) (Angle.neg lam)
      (Angle.neg phi)
  | .channelOf _ => .ok { gateNew g.klass g.name with
      targetQubits := g.targetQubits, initArgs := g.initArgs }

/-- `Gate.dagger`: build `_dagger()`, copy `is_controlled_by`, then assign
the original control qubits through the `control_qubits` setter. -/
def gateDagger (g : PyGate) : Except PyError PyGate := do
  let ng ← gateDaggerUnder g
  controlSetter { ng with isControlledBy := g.isControlledBy }
    (controlQubitsProp g)

/-- A gate object together with its lazily cached `_unitary` attribute.
The matrix type `M` is abstract because `Gate.unitary` (the subject of claim
C7) is generic base-class logic: it calls the backend-specific
`construct_unitary` and only manages the `> 2` qubit guard and the cache. -/
structure GateU (M : Type) where
  gate : PyGate
  cache : Option M
deriving DecidableEq

/-- The `Gate.unitary` lazy property.  Fails with `NotImplementedError` for
gates whose `qubits` tuple is longer than two; otherwise returns the cached
matrix, constructing and storing it first if the cache is empty.  The
returned `Bool` records whether the `self._unitary is None` branch ran,
i.e. whether `construct_unitary` was invoked on this read. -/
def gateUnitaryProp {M : Type} (constructUnitary : PyGate → M) (g : GateU M) :
    Except PyError (M × GateU M × Bool) :=
  if (gateQubits g.gate).length > 2 then
    .error ⟨.notImplementedError, "Cannot calculate unitary matrix for "
      ++ "gates that target more than two qubits."⟩
  else
    match g.cache with
    | none =>
        let u := constructUnitary g.gate
        .ok (u, ⟨g.gate, some u⟩, true)
    | some u => .ok (u, g, false)

/-- Updates the scalar parameter stored in a gate class (the `_theta`
assignment of `ParametrizedGate.parameter`; classes without a single scalar
parameter are unaffected — their own setters assign their tuples instead,
and like the base setter they first clear the unitary cache). -/
def setThetaCls : GateClass → Angle → GateClass
  | .rx _, t => .rx t
  | .ry _, t => .ry t
  | .rz _, t => .rz t
  | .u1 _, t => .u1 t
  | .crx _, t => .crx t
  | .cry _, t => .cry t
  | .crz _, t => .crz t
  | .cu1 _, t => .cu1 t
  | k, _ => k

/-- The `ParametrizedGate.parameter` setter: clears the cached unitary
(`self._unitary = None`) and stores the new parameter. -/
def parameterSetter {M : Type} (g : GateU M) (t : Angle) : GateU M :=
  ⟨{ g.gate with klass := setThetaCls g.gate.klass t }, none⟩

/-- The state of a `tensorflow.cgates.Unitary` gate: its dense matrix plus
the base-gate qubit bookkeeping (claim C5 only needs these fields). -/
structure UnitaryPG (m : ℕ) where
  matrix : Matrix (Fin m) (Fin m) ℂ
  name : String
  isControlledBy : Bool
  targetQubits : List ℕ
  controlQubits : Finset ℕ

/-- `unitary.conj().T` as computed by `Unitary._dagger`: entrywise complex
conjugation followed by transposition. -/
def npConjT {m : ℕ} (A : Matrix (Fin m) (Fin m) ℂ) :
    Matrix (Fin m) (Fin m) ℂ :=
  (A.map (starRingEnd ℂ)).transpose

/-- `Unitary._dagger`: a fresh `Unitary` on the same target qubits whose
matrix is `unitary.conj().T`. -/
def unitaryDaggerUnder {m : ℕ} (g : UnitaryPG m) : UnitaryPG m :=
  { matrix := npConjT g.matrix, name := g.name, isControlledBy := false,
    targetQubits := g.targetQubits, controlQubits := ∅ }

/-- The `control_qubits` setter on a `Unitary` gate (same validation as
`controlSetter`, restated for the matrix-carrying record). -/
def unitaryControlSetter {m : ℕ} (g : UnitaryPG m) (qs : List ℕ) :
    Except PyError (UnitaryPG m) :=
  let g1 := { g with controlQubits := qs.toFinset }
  if g1.controlQubits.card ≠ qs.length then
    .error ⟨.valueError, controlDupMsg (findRepeated qs) g.name⟩
  else if g1.targetQubits.toFinset ∩ g1.controlQubits ≠ ∅ then
    .error ⟨.valueError,
      overlapMsg (g1.targetQubits.toFinset ∩ g1.controlQubits) g.name⟩
  else
    .ok g1

/-- `Gate.dagger` for a `Unitary` gate: `_dagger()`, copy
`is_controlled_by`, assign the original control qubits via the setter. -/
def unitaryDagger {m : ℕ} (g : UnitaryPG m) : Except PyError (UnitaryPG m) :=
  unitaryControlSetter
    { unitaryDaggerUnder g with isControlledBy := g.isControlledBy }
    (g.controlQubits.sort (· ≤ ·))

/-- Applying a gate with matrix `U` to a density matrix in the custom
backend (`MatrixGate._density_matrix_call`): the matrix acts on the row half
of the doubled index space and its conjugate on the column half, which is
`U * ρ * Uᴴ`.  The scalar ring is kept abstract (any commutative star ring,
`ℂ` in the program) so that the definition stays executable. -/
def applyDM {d : ℕ} {R : Type} [CommRing R] [StarRing R]
    (U rho : Matrix (Fin d) (Fin d) R) : Matrix (Fin d) (Fin d) R :=
  U * rho * U.conjTranspose

/-- Truncating three-way zip, as Python `zip`. -/
def zip3 {α β γ : Type} : List α → List β → List γ → List (α × β × γ)
  | a :: as, b :: bs, c :: cs => (a, b, c) :: zip3 as bs cs
  | _, _, _ => []

/-- `inv_gates[-1] = None` from `KrausChannel.prepare`: the last inversion
gate is replaced by `None` because no restoration is needed after the final
term. -/
def setLastNone {α : Type} : List (Option α) → List (Option α)
  | [] => []
  | [_] => [none]
  | a :: rest => a :: setLastNone rest

/-- `KrausChannel.prepare` as specialised by `UnitaryChannel._invert`
(`gate.dagger()`): one inversion gate per operator, carrying the conjugate
transpose matrix, with the last entry replaced by `None`. -/
def invertChain {d : ℕ} {R : Type} [CommRing R] [StarRing R]
    (Us : List (Matrix (Fin d) (Fin d) R)) :
    List (Option (Matrix (Fin d) (Fin d) R)) :=
  setLastNone (Us.map fun U => some U.conjTranspose)

/-- The loop body of `UnitaryChannel._density_matrix_call`: starting from
`new_state = (1 - psum) * state`, each step applies the gate in place, adds
`p * state` to the accumulator, and (except after the last term) applies the
inversion gate to restore the working state. -/
def dmLoop {d : ℕ} {R : Type} [CommRing R] [StarRing R] [Algebra ℚ R] :
    List (ℚ × Matrix (Fin d) (Fin d) R × Option (Matrix (Fin d) (Fin d) R)) →
    Matrix (Fin d) (Fin d) R → Matrix (Fin d) (Fin d) R →
    Matrix (Fin d) (Fin d) R
  | [], _, newState => newState
  | (p, U, inv) :: rest, state, newState =>
      let state1 := applyDM U state
      let newState1 := newState + algebraMap ℚ R p • state1
      let state2 := match inv with
        | none => state1
        | some V => applyDM V state1
      dmLoop rest state2 newState1

/-- `UnitaryChannel._density_matrix_call` after `prepare` built the
inversion gates. -/
def densityMatrixCall {d : ℕ} {R : Type} [CommRing R] [StarRing R]
    [Algebra ℚ R] (ps : List ℚ) (Us : List (Matrix (Fin d) (Fin d) R))
    (rho : Matrix (Fin d) (Fin d) R) : Matrix (Fin d) (Fin d) R :=
  dmLoop (zip3 ps Us (invertChain Us)) rho
    (algebraMap ℚ R (1 - ps.sum) • rho)

/-- The exact channel action the spec states:
`(1 - Σ p) ρ + Σ p_k U_k ρ U_k†`. -/
def dmWeightedSum {d : ℕ} {R : Type} [CommRing R] [StarRing R] [Algebra ℚ R]
    (ps : List ℚ) (Us : List (Matrix (Fin d) (Fin d) R))
    (rho : Matrix (Fin d) (Fin d) R) : Matrix (Fin d) (Fin d) R :=
  (algebraMap ℚ R (1 - ps.sum) • rho) +
    ((ps.zip Us).map fun pU => algebraMap ℚ R pU.1 • applyDM pU.2 rho).sum

/-- The loop of `UnitaryChannel._state_vector_call`: one uniform draw per
branch, in branch order (`rand k` is the `k`-th value produced by
`np.random.random()`), applying the branch unitary whenever the draw is
below the branch probability. -/
def svLoop {d : ℕ} {R : Type} [CommRing R] (rand : ℕ → ℚ) :
    ℕ → List (ℚ × Matrix (Fin d) (Fin d) R) → (Fin d → R) → (Fin d → R)
  | _, [], v => v
  | k, (p, U) :: rest, v =>
      svLoop rand (k + 1) rest (if rand k < p then U.mulVec v else v)

/-- `UnitaryChannel._state_vector_call`: iterate over `zip(probs, gates)`
consuming the random stream in order. -/
def stateVectorCall {d : ℕ} {R : Type} [CommRing R] (rand : ℕ → ℚ)
    (ps : List ℚ) (Us : List (Matrix (Fin d) (Fin d) R)) (v : Fin d → R) :
    Fin d → R :=
  svLoop rand 0 (ps.zip Us) v

/-- The sequence of branch unitaries that fire: branch `k` fires exactly
when the `k`-th draw is below its probability, independently of the other
branches. -/
def firedList {d : ℕ} {R : Type} [CommRing R] (rand : ℕ → ℚ) :
    ℕ → List (ℚ × Matrix (Fin d) (Fin d) R) → List (Matrix (Fin d) (Fin d) R)
  | _, [] => []
  | k, (p, U) :: rest =>
      (if rand k < p then [U] else []) ++ firedList rand (k + 1) rest

/-- A `UnitaryChannel` object: its base gate bookkeeping plus the
probability list, their sum and the operator gates. -/
structure UChannel where
  base : PyGate
  probs : List ℚ
  psum : ℚ
  gatesL : List PyGate
deriving DecidableEq

/-- `KrausChannel.__init__` on a list of gate objects (the branch taken when
`gates[0]` is a `Gate`; an empty list makes that very indexing fail with an
`IndexError`).  The channel's targets are the sorted union of the operator
targets, assigned through the `target_qubits` setter. -/
def krausChannelInit (cname : String) (gs : List PyGate) :
    Except PyError PyGate :=
  match gs with
  | [] => .error ⟨.indexError, "list index out of range"⟩
  | _ :: _ =>
      let targets : Finset ℕ :=
        gs.foldr (fun g acc => g.targetQubits.toFinset ∪ acc) ∅
      targetSetter (gateNew (.channelOf cname) "KrausChannel")
        (targets.sort (· ≤ ·))

/-- Message of the probability-sum `ValueError` raised by
`UnitaryChannel.__init__`. -/
def psumMsg (psum : ℚ) : String :=
  "UnitaryChannel probability sum should be between 0 and 1 but is "
    ++ toString psum ++ "."

/-- `UnitaryChannel.__init__`: length check, per-probability range check,
`KrausChannel.__init__`, then the probability-sum check
(`psum > 1 or psum <= 0`). -/
def unitaryChannelInit (cname : String) (p : List ℚ) (gs : List PyGate) :
    Except PyError UChannel :=
  if p.length ≠ gs.length then
    .error ⟨.valueError, "Probabilities list has length "
      ++ toString p.length ++ " while " ++ toString gs.length
      ++ " gates were given."⟩
  else
    match p.find? (fun pp => decide (pp < 0 ∨ 1 < pp)) with
    | some pp => .error ⟨.valueError, "Probabilities should be between 0 "
        ++ "and 1 but " ++ toString pp ++ " was given."⟩
    | none => do
        let base ← krausChannelInit cname gs
        let psum := p.sum
        if psum > 1 ∨ psum ≤ 0 then
          .error ⟨.valueError, psumMsg psum⟩
        else
          .ok ⟨{ base with name := "UnitaryChannel" }, p, psum, gs⟩

/-- `ResetChannel.__init__`: probabilities `[p0, p1]` with operator gates
`[Collapse(q), X(q)]`. -/
def resetChannelInit (q : ℕ) (p0 p1 : ℚ) : Except PyError UChannel := do
  let cg ← initCollapse [q]
  let xg ← initX q
  let ch ← unitaryChannelInit "ResetChannel" [p0, p1] [cg, xg]
  .ok { ch with base := { ch.base with name := "ResetChannel" } }

/-- `PauliNoiseChannel.__init__`: includes each Pauli branch only when its
probability is strictly positive, in the order `X`, `Y`, `Z`. -/
def pauliNoiseChannelInit (q : ℕ) (px py pz : ℚ) : Except PyError UChannel := do
  let ex ← if px > 0 then (initX q).map (fun g => [(px, g)]) else .ok []
  let ey ← if py > 0 then (initY q).map (fun g => [(py, g)]) else .ok []
  let ez ← if pz > 0 then (initZ q).map (fun g => [(pz, g)]) else .ok []
  let pairs := ex ++ ey ++ ez
  let ch ← unitaryChannelInit "PauliNoiseChannel" (pairs.map Prod.fst)
    (pairs.map Prod.snd)
  .ok { ch with base := { ch.base with name := "PauliNoiseChannel" } }

/-- The commutation predicate exactly as the spec sentence states it
(for comparison with `commutes`): same class with equal target sets, or the
two combined target-plus-control sets are disjoint. -/
def commutesSpecPred (g1 g2 : PyGate) : Prop :=
  (g1.klass.tag = g2.klass.tag ∧
    g1.targetQubits.toFinset = g2.targetQubits.toFinset) ∨
  (g1.controlQubits ∪ g1.targetQubits.toFinset) ∩
    (g2.controlQubits ∪ g2.targetQubits.toFinset) = ∅

/-- The gate object built by `CNOT(0, 1)`. -/
def cnotGate01 : PyGate :=
  { klass := .cnot, name := "cx", isPrepared := false,
    isControlledBy := false, targetQubits := [1], controlQubits := {0},
    nqubitsF := none, nstatesF := none, initArgs := [0, 1] }

/-- The gate object built by `CZ(0, 2)`. -/
def czGate02 : PyGate :=
  { klass := .cz, name := "cz", isPrepared := false,
    isControlledBy := false, targetQubits := [2], controlQubits := {0},
    nqubitsF := none, nstatesF := none, initArgs := [0, 2] }

/-- The gate object built by `X(0)`. -/
def xGate0 : PyGate :=
  { klass := .x, name := "x", isPrepared := false, isControlledBy := false,
    targetQubits := [0], controlQubits := ∅, nqubitsF := none,
    nstatesF := none, initArgs := [0] }

/-- The gate object built by `H(5)`. -/
def hGate5 : PyGate :=
  { klass := .h, name := "h", isPrepared := false, isControlledBy := false,
    targetQubits := [5], controlQubits := ∅, nqubitsF := none,
    nstatesF := none, initArgs := [5] }

/-- The gate object built by `CRX(0, 1, 1.0)` (angle `1`). -/
def crxGate01 : PyGate :=
  { klass := .crx ⟨1, 0⟩, name := "crx", isPrepared := false,
    isControlledBy := false, targetQubits := [1], controlQubits := {0},
    nqubitsF := none, nstatesF := none, initArgs := [0, 1] }

/-! ## Helper lemmas -/

theorem exBindOk {ε α β : Type} (a : α) (f : α → Except ε β) :
    ((Except.ok a : Except ε α) >>= f) = f a := rfl

theorem exBindErr {ε α β : Type} (e : ε) (f : α → Except ε β) :
    ((Except.error e : Except ε α) >>= f) = .error e := rfl

theorem exMapOk {ε α β : Type} (a : α) (f : α → β) :
    (Except.ok a : Except ε α).map f = .ok (f a) := rfl

theorem exMapErr {ε α β : Type} (e : ε) (f : α → β) :
    (Except.error e : Except ε α).map f = .error e := rfl

/-- A list has pairwise distinct entries exactly when its length equals the
size of the set of its entries. -/
theorem length_eq_toFinset_card_iff_nodup (l : List ℕ) :
    l.length = l.toFinset.card ↔ l.Nodup := by
  rw [List.card_toFinset]
  constructor
  · intro h
    have hsub : l.dedup.Sublist l := l.dedup_sublist
    have heq : l.dedup = l := hsub.eq_of_length h.symm
    exact heq ▸ l.nodup_dedup
  · intro h
    rw [List.dedup_eq_self.mpr h]

theorem targetSetter_eq_ok {g : PyGate} {qs : List ℕ} {g' : PyGate} :
    targetSetter g qs = .ok g' ↔
      qs.length = qs.toFinset.card ∧ qs.toFinset ∩ g.controlQubits = ∅ ∧
        g' = { g with targetQubits := qs } := by
  by_cases hlen : qs.length = qs.toFinset.card
  · by_cases hcap : qs.toFinset ∩ g.controlQubits = ∅
    · simp [targetSetter, setTargetQubitsH, checkControlTargetOverlap,
        hlen, hcap, exBindOk, exBindErr, eq_comm]
    · simp [targetSetter, setTargetQubitsH, checkControlTargetOverlap,
        hlen, hcap, exBindOk, exBindErr]
  · simp [targetSetter, setTargetQubitsH, checkControlTargetOverlap, hlen,
      exBindOk, exBindErr]

theorem controlSetter_eq_ok {g : PyGate} {qs : List ℕ} {g' : PyGate} :
    controlSetter g qs = .ok g' ↔
      qs.toFinset.card = qs.length ∧
        g.targetQubits.toFinset ∩ qs.toFinset = ∅ ∧
        g' = { g with controlQubits := qs.toFinset } := by
  by_cases hlen : qs.toFinset.card = qs.length
  · by_cases hcap : g.targetQubits.toFinset ∩ qs.toFinset = ∅
    · simp [controlSetter, setControlQubitsH, checkControlTargetOverlap,
        hlen, hcap, exBindOk, exBindErr, eq_comm]
    · simp [controlSetter, setControlQubitsH, checkControlTargetOverlap,
        hlen, hcap, exBindOk, exBindErr]
  · simp [controlSetter, setControlQubitsH, checkControlTargetOverlap, hlen,
      exBindOk, exBindErr]

theorem targetSetter_dup {g : PyGate} {qs : List ℕ} (h : ¬ qs.Nodup) :
    targetSetter g qs =
      .error ⟨.valueError, targetDupMsg (findRepeated qs) g.name⟩ := by
  have hlen : ¬ qs.length = qs.toFinset.card := fun hc =>
    h ((length_eq_toFinset_card_iff_nodup qs).mp hc)
  simp [targetSetter, setTargetQubitsH, hlen, exBindErr]

theorem controlSetter_dup {g : PyGate} {qs : List ℕ} (h : ¬ qs.Nodup) :
    controlSetter g qs =
      .error ⟨.valueError, controlDupMsg (findRepeated qs) g.name⟩ := by
  have hlen : ¬ qs.toFinset.card = qs.length := fun hc =>
    h ((length_eq_toFinset_card_iff_nodup qs).mp hc.symm)
  simp [controlSetter, setControlQubitsH, hlen, exBindErr]

theorem targetSetter_overlap {g : PyGate} {qs : List ℕ} (h1 : qs.Nodup)
    (h2 : qs.toFinset ∩ g.controlQubits ≠ ∅) :
    targetSetter g qs =
      .error ⟨.valueError, overlapMsg (qs.toFinset ∩ g.controlQubits)
        g.name⟩ := by
  have hlen := (length_eq_toFinset_card_iff_nodup qs).mpr h1
  simp [targetSetter, setTargetQubitsH, checkControlTargetOverlap, hlen, h2,
    exBindOk, exBindErr]

theorem controlSetter_overlap {g : PyGate} {qs : List ℕ} (h1 : qs.Nodup)
    (h2 : g.targetQubits.toFinset ∩ qs.toFinset ≠ ∅) :
    controlSetter g qs =
      .error ⟨.valueError, overlapMsg (g.targetQubits.toFinset ∩ qs.toFinset)
        g.name⟩ := by
  have hlen := (length_eq_toFinset_card_iff_nodup qs).mpr h1
  simp [controlSetter, setControlQubitsH, checkControlTargetOverlap, hlen, h2,
    exBindOk, exBindErr]

theorem setTargetsAndControls_eq_ok {g : PyGate} {tq cq : List ℕ}
    {g' : PyGate} :
    setTargetsAndControls g tq cq = .ok g' ↔
      tq.length = tq.toFinset.card ∧ cq.toFinset.card = cq.length ∧
        tq.toFinset ∩ cq.toFinset = ∅ ∧
        g' = { g with targetQubits := tq, controlQubits := cq.toFinset } := by
  by_cases h1 : tq.length = tq.toFinset.card
  · by_cases h2 : cq.toFinset.card = cq.length
    · by_cases h3 : tq.toFinset ∩ cq.toFinset = ∅
      · simp [setTargetsAndControls, setTargetQubitsH, setControlQubitsH,
          checkControlTargetOverlap, h1, h2, h3, exBindOk, exBindErr, eq_comm]
      · simp [setTargetsAndControls, setTargetQubitsH, setControlQubitsH,
          checkControlTargetOverlap, h1, h2, h3, exBindOk, exBindErr]
    · simp [setTargetsAndControls, setTargetQubitsH, setControlQubitsH,
        checkControlTargetOverlap, h1, h2, exBindOk, exBindErr]
  · simp [setTargetsAndControls, setTargetQubitsH, h1, exBindOk, exBindErr]

/-- Claim C3: after any successful assignment of target or control qubits
(and hence after any successful construction, all of which end in these
setters) the target tuple is duplicate-free and disjoint from the control
set (which, as a set, is duplicate-free by construction); assigning a
duplicated qubit raises a `ValueError` naming the repeated qubit and the
gate, and an assignment making a qubit both target and control raises a
`ValueError` naming the offending qubits and the gate. -/
theorem qubit_setters_spec :
    ∀ (g : PyGate) (qs tq cq : List ℕ) (g' : PyGate),
      (targetSetter g qs = .ok g' →
        g'.targetQubits.Nodup ∧
        g'.targetQubits.toFinset ∩ g'.controlQubits = ∅ ∧
        g'.controlQubits = g.controlQubits) ∧
      (controlSetter g qs = .ok g' →
        g'.targetQubits.toFinset ∩ g'.controlQubits = ∅ ∧
        g'.targetQubits = g.targetQubits) ∧
      (setTargetsAndControls g tq cq = .ok g' →
        g'.targetQubits.Nodup ∧
        g'.targetQubits.toFinset ∩ g'.controlQubits = ∅) ∧
      (¬ qs.Nodup →
        targetSetter g qs =
          .error ⟨.valueError, targetDupMsg (findRepeated qs) g.name⟩ ∧
        controlSetter g qs =
          .error ⟨.valueError, controlDupMsg (findRepeated qs) g.name⟩) ∧
      (qs.Nodup → qs.toFinset ∩ g.controlQubits ≠ ∅ →
        targetSetter g qs =
          .error ⟨.valueError,
            overlapMsg (qs.toFinset ∩ g.controlQubits) g.name⟩) ∧
      (qs.Nodup → g.targetQubits.toFinset ∩ qs.toFinset ≠ ∅ →
        controlSetter g qs =
          .error ⟨.valueError,
            overlapMsg (g.targetQubits.toFinset ∩ qs.toFinset) g.name⟩) := by
  intro g qs tq cq g'
  refine ⟨?_, ?_, ?_, ?_, ?_, ?_⟩
  · intro h
    obtain ⟨hlen, hcap, rfl⟩ := targetSetter_eq_ok.mp h
    exact ⟨(length_eq_toFinset_card_iff_nodup qs).mp hlen, hcap, rfl⟩
  · intro h
    obtain ⟨hlen, hcap, rfl⟩ := controlSetter_eq_ok.mp h
    exact ⟨hcap, rfl⟩
  · intro h
    obtain ⟨hlen, hclen, hcap, rfl⟩ := setTargetsAndControls_eq_ok.mp h
    exact ⟨(length_eq_toFinset_card_iff_nodup tq).mp hlen, hcap⟩
  · intro h
    exact ⟨targetSetter_dup h, controlSetter_dup h⟩
  · intro h1 h2
    exact targetSetter_overlap h1 h2
  · intro h1 h2
    exact controlSetter_overlap h1 h2

/-- Witness for C3: a fresh target assignment on `H(5)` succeeds and
satisfies the invariant; a duplicated assignment fails with the documented
`ValueError`. -/
theorem qubit_setters_spec_witness :
    ((targetSetter hGate5 [0] = .ok { hGate5 with targetQubits := [0] }) ∧
      (({ hGate5 with targetQubits := [0] } : PyGate).targetQubits.Nodup ∧
        ({ hGate5 with targetQubits := [0] } : PyGate).targetQubits.toFinset ∩
          ({ hGate5 with targetQubits := [0] } : PyGate).controlQubits = ∅ ∧
        ({ hGate5 with targetQubits := [0] } : PyGate).controlQubits =
          hGate5.controlQubits)) ∧
    (¬ ([3, 3] : List ℕ).Nodup ∧
      targetSetter hGate5 [3, 3] =
        .error ⟨.valueError, targetDupMsg (findRepeated [3, 3])
          hGate5.name⟩) :=
  ⟨⟨by decide, (qubit_setters_spec hGate5 [0] [] [] _).1 (by decide)⟩,
    ⟨by decide, ((qubit_setters_spec hGate5 [3, 3] [] []
      { hGate5 with targetQubits := [0] }).2.2.2.1 (by decide)).1⟩⟩

/-- Claim C8: `nqubits` can be assigned exactly once — a second assignment
raises a `RuntimeError` naming the already-assigned value; reading
`nqubits` or `nstates` before any assignment raises a `ValueError`; after a
successful assignment of `n`, `nstates` reads back as `2 ^ n`. -/
theorem nqubits_set_once_spec :
    ∀ (g : PyGate) (n : ℕ) (g' : PyGate),
      (g.nqubitsF = none →
        nqubitsSetter g n =
          .ok { g with nqubitsF := some n, nstatesF := some (2 ^ n) }) ∧
      (∀ m, g.nqubitsF = some m →
        nqubitsSetter g n =
          .error ⟨.runtimeError, "The number of qubits for this gates is "
            ++ "set to " ++ toString m ++ "."⟩) ∧
      (g.nqubitsF = none →
        nqubitsGetter g =
          .error ⟨.valueError, "Accessing number of qubits for gate "
            ++ g.name ++ " but this is not yet set."⟩) ∧
      (g.nstatesF = none →
        nstatesGetter g =
          .error ⟨.valueError, "Accessing number of qubits for gate "
            ++ g.name ++ " but this is not yet set."⟩) ∧
      (nqubitsSetter g n = .ok g' →
        nqubitsGetter g' = .ok n ∧ nstatesGetter g' = .ok (2 ^ n)) := by
  intro g n g'
  refine ⟨?_, ?_, ?_, ?_, ?_⟩
  · intro h; simp [nqubitsSetter, h]
  · intro m h; simp [nqubitsSetter, h]
  · intro h; simp [nqubitsGetter, h]
  · intro h; simp [nstatesGetter, h]
  · intro h
    cases hq : g.nqubitsF with
    | some m => simp [nqubitsSetter, hq] at h
    | none =>
        rw [nqubitsSetter, hq] at h
        cases h
        exact ⟨rfl, rfl⟩

/-- Witness for C8: setting `nqubits = 3` on a fresh `X(0)` succeeds and
`nstates` reads back `8`; setting it again on the result fails with the
`RuntimeError` naming `3`; reading before assignment fails with a
`ValueError`. -/
theorem nqubits_set_once_spec_witness :
    (xGate0.nqubitsF = none ∧
      nqubitsGetter xGate0 =
        .error ⟨.valueError, "Accessing number of qubits for gate "
          ++ xGate0.name ++ " but this is not yet set."⟩) ∧
    (nqubitsSetter xGate0 3 =
        .ok { xGate0 with nqubitsF := some 3, nstatesF := some 8 } ∧
      (nqubitsGetter { xGate0 with nqubitsF := some 3, nstatesF := some 8 } =
          .ok 3 ∧
        nstatesGetter { xGate0 with nqubitsF := some 3, nstatesF := some 8 }
          = .ok (2 ^ 3))) ∧
    (({ xGate0 with nqubitsF := some 3, nstatesF := some 8 } :
        PyGate).nqubitsF = some 3 ∧
      nqubitsSetter { xGate0 with nqubitsF := some 3, nstatesF := some 8 } 7 =
        .error ⟨.runtimeError, "The number of qubits for this gates is "
          ++ "set to " ++ toString 3 ++ "."⟩) :=
  ⟨⟨by decide, (nqubits_set_once_spec xGate0 0 xGate0).2.2.1 (by decide)⟩,
    ⟨by decide,
      (nqubits_set_once_spec xGate0 3
        { xGate0 with nqubitsF := some 3, nstatesF := some 8 }).2.2.2.2
        (by decide)⟩,
    ⟨by decide,
      (nqubits_set_once_spec
        { xGate0 with nqubitsF := some 3, nstatesF := some 8 } 7 xGate0).2.1
        3 (by decide)⟩⟩

/-- Claim C10: `controlled_by()` with no qubit arguments on a gate that is
neither controlled nor prepared returns the gate itself unchanged (so
`is_controlled_by` and `control_qubits` keep their values); the
already-controlled and already-prepared `RuntimeError` checks run before the
argument count is examined, so they fire for any argument list, the empty
one included. -/
theorem controlled_by_no_args_spec :
    ∀ (g : PyGate) (qs : List ℕ),
      (g.controlQubits = ∅ → g.isPrepared = false →
        baseControlledBy g [] = .ok g) ∧
      (g.controlQubits ≠ ∅ →
        baseControlledBy g qs =
          .error ⟨.runtimeError, "Cannot use controlled_by method on gate "
            ++ g.name ++ " because it is already controlled by "
            ++ finsetStr g.controlQubits ++ "."⟩) ∧
      (g.controlQubits = ∅ → g.isPrepared = true →
        baseControlledBy g qs =
          .error ⟨.runtimeError,
            "Cannot use controlled_by on a prepared gate."⟩) := by
  intro g qs
  refine ⟨?_, ?_, ?_⟩
  · intro h1 h2; simp [baseControlledBy, h1, h2]
  · intro h1; simp [baseControlledBy, h1]
  · intro h1 h2; simp [baseControlledBy, h1, h2]

/-- Witness for C10: `H(5).controlled_by()` returns the gate unchanged;
on the already-controlled `CNOT(0, 1)` and on a prepared `H(5)` the checks
fire even with zero arguments. -/
theorem controlled_by_no_args_spec_witness :
    ((cnotGate01.controlQubits ≠ ∅ ∧ hGate5.controlQubits = ∅ ∧
        hGate5.isPrepared = false) ∧
      baseControlledBy hGate5 [] = .ok hGate5) ∧
    (baseControlledBy cnotGate01 [] =
      .error ⟨.runtimeError, "Cannot use controlled_by method on gate "
        ++ cnotGate01.name ++ " because it is already controlled by "
        ++ finsetStr cnotGate01.controlQubits ++ "."⟩) ∧
    (baseControlledBy { hGate5 with isPrepared := true } [] =
      .error ⟨.runtimeError,
        "Cannot use controlled_by on a prepared gate."⟩) :=
  ⟨⟨by decide,
      (controlled_by_no_args_spec hGate5 []).1 (by decide) (by decide)⟩,
    (controlled_by_no_args_spec cnotGate01 []).2.1 (by decide),
    (controlled_by_no_args_spec { hGate5 with isPrepared := true } []).2.2
      (by decide) (by decide)⟩

/-- Claim C7: reading `unitary` on a gate whose targets plus controls exceed
two qubits raises a `NotImplementedError`; for at most two qubits the dense
matrix is built once and cached — a read on the cached state returns the
same matrix, leaves the state unchanged and does not call
`construct_unitary` again — and a parameter assignment clears the cache. -/
theorem unitary_cache_spec :
    ∀ (M : Type) (cu : PyGate → M) (g : GateU M) (t : Angle),
      ((gateQubits g.gate).length > 2 →
        gateUnitaryProp cu g =
          .error ⟨.notImplementedError, "Cannot calculate unitary matrix for "
            ++ "gates that target more than two qubits."⟩) ∧
      ((gateQubits g.gate).length ≤ 2 → g.cache = none →
        gateUnitaryProp cu g =
          .ok (cu g.gate, ⟨g.gate, some (cu g.gate)⟩, true)) ∧
      (∀ u, (gateQubits g.gate).length ≤ 2 → g.cache = some u →
        gateUnitaryProp cu g = .ok (u, g, false)) ∧
      (∀ u g1 b, gateUnitaryProp cu g = .ok (u, g1, b) →
        gateUnitaryProp cu g1 = .ok (u, g1, false)) ∧
      ((parameterSetter g t).cache = none) := by
  intro M cu g t
  have hsplit : ∀ u g1 b, gateUnitaryProp cu g = .ok (u, g1, b) →
      gateUnitaryProp cu g1 = .ok (u, g1, false) := by
    intro u g1 b h
    by_cases hq : (gateQubits g.gate).length > 2
    · simp [gateUnitaryProp, hq] at h
    · cases hc : g.cache with
      | none =>
          rw [gateUnitaryProp, if_neg hq, hc] at h
          cases h
          rw [gateUnitaryProp]
          simp only []
          rw [if_neg hq]
      | some u0 =>
          rw [gateUnitaryProp, if_neg hq, hc] at h
          cases h
          rw [gateUnitaryProp, if_neg hq, hc]
  refine ⟨?_, ?_, ?_, hsplit, rfl⟩
  · intro h; simp [gateUnitaryProp, h]
  · intro h1 h2
    rw [gateUnitaryProp, if_neg (by omega), h2]
  · intro u h1 h2
    rw [gateUnitaryProp, if_neg (by omega), h2]

/-- Witness for C7: on `X(0)` (one qubit) the first read constructs and
caches, the second read returns the cache without reconstruction; on a
three-qubit identity gate the read fails with `NotImplementedError`;
a parameter assignment clears the cache. -/
theorem unitary_cache_spec_witness :
    ((gateQubits xGate0).length ≤ 2 ∧
      ((⟨xGate0, none⟩ : GateU ℕ).cache = none) ∧
      gateUnitaryProp (fun _ => 7) (⟨xGate0, none⟩ : GateU ℕ) =
        .ok (7, ⟨xGate0, some 7⟩, true)) ∧
    (gateUnitaryProp (fun _ => 7) (⟨xGate0, some 7⟩ : GateU ℕ) =
      .ok (7, ⟨xGate0, some 7⟩, false)) ∧
    ((gateQubits { klass := .iden, name := "identity", isPrepared := false, isControlledBy := false, targetQubits := [0, 1, 2], controlQubits := ∅, nqubitsF := none, nstatesF := none, initArgs := [0, 1, 2] }).length > 2 ∧
      gateUnitaryProp (fun _ => 7)
        (⟨{ klass := .iden, name := "identity", isPrepared := false, isControlledBy := false, targetQubits := [0, 1, 2], controlQubits := ∅, nqubitsF := none, nstatesF := none, initArgs := [0, 1, 2] }, none⟩ : GateU ℕ) =
        .error ⟨.notImplementedError, "Cannot calculate unitary matrix for "
          ++ "gates that target more than two qubits."⟩) ∧
    ((parameterSetter (⟨xGate0, some 7⟩ : GateU ℕ) ⟨1, 0⟩).cache = none) :=
  ⟨⟨by simp [gateQubits, controlQubitsProp, xGate0], rfl,
      (unitary_cache_spec ℕ (fun _ => 7) ⟨xGate0, none⟩ ⟨1, 0⟩).2.1
        (by simp [gateQubits, controlQubitsProp, xGate0]) rfl⟩,
    (unitary_cache_spec ℕ (fun _ => 7) ⟨xGate0, some 7⟩ ⟨1, 0⟩).2.2.1
      7 (by simp [gateQubits, controlQubitsProp, xGate0]) rfl,
    ⟨by simp [gateQubits, controlQubitsProp],
      (unitary_cache_spec ℕ (fun _ => 7)
        (⟨{ klass := .iden, name := "identity", isPrepared := false, isControlledBy := false, targetQubits := [0, 1, 2], controlQubits := ∅, nqubitsF := none, nstatesF := none, initArgs := [0, 1, 2] }, none⟩ : GateU ℕ) ⟨1, 0⟩).1
        (by simp [gateQubits, controlQubitsProp])⟩,
    (unitary_cache_spec ℕ (fun _ => 7) ⟨xGate0, some 7⟩ ⟨1, 0⟩).2.2.2.2⟩

theorem gateQubits_toFinset (g : PyGate) :
    (gateQubits g).toFinset = g.controlQubits ∪ g.targetQubits.toFinset := by
  simp [gateQubits, controlQubitsProp, List.toFinset_append,
    Finset.sort_toFinset]

theorem commutes_iff_core (g1 g2 : PyGate) :
    commutes g1 g2 = true ↔
      ((g1.klass.tag = g2.klass.tag ∧
          g1.targetQubits.toFinset = g2.targetQubits.toFinset) ∨
        (g1.targetQubits.toFinset ∩
            (g2.controlQubits ∪ g2.targetQubits.toFinset) = ∅ ∧
          g2.targetQubits.toFinset ∩
            (g1.controlQubits ∪ g1.targetQubits.toFinset) = ∅)) := by
  rw [commutes]
  simp only [gateQubits_toFinset, Bool.or_eq_true, Bool.and_eq_true,
    decide_eq_true_eq, Bool.not_eq_true', Bool.or_eq_false_iff,
    decide_eq_false_iff_not, ne_eq, not_not]

/-- Claim C1 counterexample: `CNOT(0, 1)` and `CZ(0, 2)` share only the
control qubit `0`, so their combined target-plus-control sets are not
disjoint and they are of different classes — yet `commutes` returns
`True`, because the code only intersects each gate's *targets* with the
other gate's qubits. -/
theorem commutes_shared_control_counterexample :
    commutes cnotGate01 czGate02 = true ∧
      ¬ commutesSpecPred cnotGate01 czGate02 := by
  constructor
  · rw [commutes_iff_core]
    right
    exact ⟨by decide, by decide⟩
  · unfold commutesSpecPred
    decide

/-- Claim C1 (amended): `commutes` returns `True` iff the gates are of the
same class with equal target sets, or each gate's *target* set is disjoint
from the other gate's combined target-plus-control set (the control sets
themselves may overlap); otherwise it returns `False`. -/
theorem commutes_iff_amended :
    ∀ g1 g2 : PyGate,
      commutes g1 g2 = true ↔
        ((g1.klass.tag = g2.klass.tag ∧
            g1.targetQubits.toFinset = g2.targetQubits.toFinset) ∨
          (g1.targetQubits.toFinset ∩
              (g2.controlQubits ∪ g2.targetQubits.toFinset) = ∅ ∧
            g2.targetQubits.toFinset ∩
              (g1.controlQubits ∪ g1.targetQubits.toFinset) = ∅)) :=
  fun g1 g2 => commutes_iff_core g1 g2

theorem targetSetter_fresh_single (k : GateClass) (nm : String) (t : ℕ) :
    targetSetter (gateNew k nm) [t] =
      .ok { gateNew k nm with targetQubits := [t] } :=
  targetSetter_eq_ok.mpr ⟨by simp, by simp [gateNew], rfl⟩

theorem initCollapse_single (q : ℕ) :
    initCollapse [q] =
      .ok
        { klass := .collapse, name := "collapse", isPrepared := false,
          isControlledBy := false, targetQubits := [q], controlQubits := ∅,
          nqubitsF := none, nstatesF := none, initArgs := [q] } := by
  rw [initCollapse, targetSetter_fresh_single]; rfl

theorem initX_eval (q : ℕ) :
    initX q =
      .ok
        { klass := .x, name := "x", isPrepared := false,
          isControlledBy := false, targetQubits := [q], controlQubits := ∅,
          nqubitsF := none, nstatesF := none, initArgs := [q] } := by
  rw [initX, targetSetter_fresh_single]; rfl

theorem krausChannelInit_cons (cname : String) (g0 : PyGate)
    (gs : List PyGate) :
    krausChannelInit cname (g0 :: gs) =
      .ok { gateNew (.channelOf cname) "KrausChannel" with
        targetQubits :=
          (((g0 :: gs).foldr
            (fun g acc => g.targetQubits.toFinset ∪ acc) ∅ :
              Finset ℕ)).sort (· ≤ ·) } := by
  rw [krausChannelInit]
  exact targetSetter_eq_ok.mpr
    ⟨by rw [Finset.length_sort, Finset.sort_toFinset],
      by simp [gateNew], rfl⟩

theorem unitaryChannelInit_psum_error (cname : String) (p : List ℚ)
    (g0 : PyGate) (gs : List PyGate)
    (hlen : p.length = (g0 :: gs).length)
    (hrange : ∀ pp ∈ p, 0 ≤ pp ∧ pp ≤ 1)
    (hsum : p.sum ≤ 0 ∨ 1 < p.sum) :
    unitaryChannelInit cname p (g0 :: gs) =
      .error ⟨.valueError, psumMsg p.sum⟩ := by
  rw [unitaryChannelInit, if_neg (by simp [hlen])]
  have hfind : p.find? (fun pp => decide (pp < 0 ∨ 1 < pp)) = none := by
    apply List.find?_eq_none.mpr
    intro x hx
    obtain ⟨h0, h1⟩ := hrange x hx
    simp only [decide_eq_true_eq, not_or, not_lt]
    exact ⟨h0, h1⟩
  rw [hfind, krausChannelInit_cons, exBindOk, if_pos hsum.symm]

/-- Claim C9 counterexample: `PauliNoiseChannel(0)` with its default
probabilities builds empty probability and gate lists, and
`KrausChannel.__init__` then indexes `gates[0]` — the construction fails
with an `IndexError`, not a `ValueError`; the same happens for a
`UnitaryChannel` over empty lists, whose probabilities sum to `0`. -/
theorem pauli_noise_default_counterexample :
    pauliNoiseChannelInit 0 0 0 0 =
        .error ⟨.indexError, "list index out of range"⟩ ∧
      unitaryChannelInit "UnitaryChannel" [] [] =
        .error ⟨.indexError, "list index out of range"⟩ ∧
      PyErrorKind.indexError ≠ PyErrorKind.valueError :=
  ⟨rfl, rfl, by decide⟩

/-- Claim C9 (amended): constructing a `UnitaryChannel` over a *nonempty*
gate list with in-range probabilities summing to `0` (or exceeding `1`)
raises a `ValueError`; consequently `ResetChannel(q)` with its defaults
`p0 = p1 = 0.0` fails at construction with that `ValueError`, while
`PauliNoiseChannel(q)` with its defaults `px = py = pz = 0` builds empty
lists and fails at construction with an `IndexError` (from indexing the
empty operator list), not a `ValueError`. -/
theorem channel_default_probability_validation :
    (∀ (cname : String) (p : List ℚ) (g0 : PyGate) (gs : List PyGate),
      p.length = (g0 :: gs).length → (∀ pp ∈ p, 0 ≤ pp ∧ pp ≤ 1) →
      (p.sum ≤ 0 ∨ 1 < p.sum) →
      unitaryChannelInit cname p (g0 :: gs) =
        .error ⟨.valueError, psumMsg p.sum⟩) ∧
    (∀ q, resetChannelInit q 0 0 = .error ⟨.valueError, psumMsg 0⟩) ∧
    (∀ q, pauliNoiseChannelInit q 0 0 0 =
      .error ⟨.indexError, "list index out of range"⟩) := by
  refine ⟨unitaryChannelInit_psum_error, ?_, ?_⟩
  · intro q
    rw [resetChannelInit, initCollapse_single, exBindOk, initX_eval, exBindOk]
    have hz : ([0, 0] : List ℚ).sum = 0 := by norm_num
    have h := unitaryChannelInit_psum_error "ResetChannel" [0, 0]
      { klass := .collapse, name := "collapse", isPrepared := false, isControlledBy := false, targetQubits := [q], controlQubits := ∅, nqubitsF := none, nstatesF := none, initArgs := [q] }
      [{ klass := .x, name := "x", isPrepared := false, isControlledBy := false, targetQubits := [q], controlQubits := ∅, nqubitsF := none, nstatesF := none, initArgs := [q] }]
      (by simp) (by norm_num) (by rw [hz]; norm_num)
    rw [h, exBindErr, hz]
  · intro q
    rfl

/-- Witness for C9: a one-branch `UnitaryChannel` over `X(0)` with
probability list `[0]` fails with the probability-sum `ValueError`. -/
theorem channel_default_probability_validation_witness :
    (([0] : List ℚ).length = ([xGate0] : List PyGate).length ∧
      (∀ pp ∈ ([0] : List ℚ), 0 ≤ pp ∧ pp ≤ 1) ∧
      (([0] : List ℚ).sum ≤ 0 ∨ 1 < ([0] : List ℚ).sum)) ∧
    unitaryChannelInit "UnitaryChannel" [0] [xGate0] =
      .error ⟨.valueError, psumMsg ([0] : List ℚ).sum⟩ :=
  ⟨⟨by decide, by decide, by norm_num⟩,
    channel_default_probability_validation.1 "UnitaryChannel" [0] xGate0 []
      (by decide) (by decide) (by norm_num)⟩

theorem initControlled1_eval (k : GateClass) (nm : String) (q0 q1 : ℕ)
    (h : q0 ≠ q1) :
    initControlled1 k nm q0 q1 =
      .ok
        { klass := k, name := nm, isPrepared := false,
          isControlledBy := false, targetQubits := [q1],
          controlQubits := {q0}, nqubitsF := none, nstatesF := none,
          initArgs := [q0, q1] } := by
  rw [initControlled1]
  have h1 : controlSetter (gateNew k nm) [q0] =
      .ok { gateNew k nm with controlQubits := [q0].toFinset } :=
    controlSetter_eq_ok.mpr ⟨by simp, by simp [gateNew], rfl⟩
  rw [withInitArgs, h1, exBindOk]
  have h2 : targetSetter { gateNew k nm with controlQubits := [q0].toFinset }
      [q1] =
      .ok { gateNew k nm with controlQubits := [q0].toFinset, targetQubits := [q1] } :=
    targetSetter_eq_ok.mpr ⟨by simp, by simp [Ne.symm h], rfl⟩
  rw [h2, exMapOk]
  simp [gateNew]

theorem initTOFFOLI_eval (q0 q1 q2 : ℕ) (h01 : q0 ≠ q1) (h02 : q0 ≠ q2)
    (h12 : q1 ≠ q2) :
    initTOFFOLI q0 q1 q2 =
      .ok
        { klass := .toffoli, name := "ccx", isPrepared := false,
          isControlledBy := false, targetQubits := [q2],
          controlQubits := {q0, q1}, nqubitsF := none, nstatesF := none,
          initArgs := [q0, q1, q2] } := by
  rw [initTOFFOLI]
  have h1 : controlSetter (gateNew .toffoli "ccx") [q0, q1] =
      .ok { gateNew .toffoli "ccx" with controlQubits := [q0, q1].toFinset } :=
    controlSetter_eq_ok.mpr ⟨by simp [h01], by simp [gateNew], rfl⟩
  rw [withInitArgs, h1, exBindOk]
  have h2 : targetSetter
      { gateNew .toffoli "ccx" with controlQubits := [q0, q1].toFinset }
      [q2] =
      .ok { gateNew .toffoli "ccx" with controlQubits := [q0, q1].toFinset, targetQubits := [q2] } :=
    targetSetter_eq_ok.mpr ⟨by simp, by simp [Ne.symm h02, Ne.symm h12], rfl⟩
  rw [h2, exMapOk]
  simp [gateNew]

/-- Claim C6: `controlled_by` on `X` with exactly one qubit returns the
`CNOT` constructor's gate and with exactly two the `TOFFOLI` one; on `Z`
with one qubit it returns `CZ`; on `RX`/`RY`/`RZ`/`U1`/`U2`/`U3` with one
qubit it returns the dedicated controlled class with the same parameters;
for any other control count these classes fall back to the generic base
`controlled_by` path.  When the control is distinct from the target the
dedicated constructor succeeds with the expected control/target layout. -/
theorem controlled_by_dispatch_spec :
    ∀ (g : PyGate) (c c2 t : ℕ) (th ph lm : Angle) (qs : List ℕ),
      (g.klass = .x → g.targetQubits = [t] →
        gateControlledBy g [c] = initCNOT c t ∧
        gateControlledBy g [c, c2] = initTOFFOLI c c2 t ∧
        (qs.length ≠ 1 → qs.length ≠ 2 →
          gateControlledBy g qs = baseControlledBy g qs)) ∧
      (g.klass = .z → g.targetQubits = [t] →
        gateControlledBy g [c] = initCZ c t ∧
        (qs.length ≠ 1 → gateControlledBy g qs = baseControlledBy g qs)) ∧
      (g.klass = .rx th → g.targetQubits = [t] →
        gateControlledBy g [c] = initCRX c t th ∧
        (qs.length ≠ 1 → gateControlledBy g qs = baseControlledBy g qs)) ∧
      (g.klass = .ry th → g.targetQubits = [t] →
        gateControlledBy g [c] = initCRY c t th ∧
        (qs.length ≠ 1 → gateControlledBy g qs = baseControlledBy g qs)) ∧
      (g.klass = .rz th → g.targetQubits = [t] →
        gateControlledBy g [c] = initCRZ c t th ∧
        (qs.length ≠ 1 → gateControlledBy g qs = baseControlledBy g qs)) ∧
      (g.klass = .u1 th → g.targetQubits = [t] →
        gateControlledBy g [c] = initCU1 c t th ∧
        (qs.length ≠ 1 → gateControlledBy g qs = baseControlledBy g qs)) ∧
      (g.klass = .u2 ph lm → g.targetQubits = [t] →
        gateControlledBy g [c] = initCU2 c t ph lm ∧
        (qs.length ≠ 1 → gateControlledBy g qs = baseControlledBy g qs)) ∧
      (g.klass = .u3 th ph lm → g.targetQubits = [t] →
        gateControlledBy g [c] = initCU3 c t th ph lm ∧
        (qs.length ≠ 1 → gateControlledBy g qs = baseControlledBy g qs)) ∧
      (c ≠ t →
        initCNOT c t =
          .ok
            { klass := .cnot, name := "cx", isPrepared := false,
              isControlledBy := false, targetQubits := [t],
              controlQubits := {c}, nqubitsF := none, nstatesF := none,
              initArgs := [c, t] } ∧
        initCZ c t =
          .ok
            { klass := .cz, name := "cz", isPrepared := false,
              isControlledBy := false, targetQubits := [t],
              controlQubits := {c}, nqubitsF := none, nstatesF := none,
              initArgs := [c, t] } ∧
        initCRX c t th =
          .ok
            { klass := .crx th, name := "crx", isPrepared := false,
              isControlledBy := false, targetQubits := [t],
              controlQubits := {c}, nqubitsF := none, nstatesF := none,
              initArgs := [c, t] }) ∧
      (c ≠ c2 → c ≠ t → c2 ≠ t →
        initTOFFOLI c c2 t =
          .ok
            { klass := .toffoli, name := "ccx", isPrepared := false,
              isControlledBy := false, targetQubits := [t],
              controlQubits := {c, c2}, nqubitsF := none, nstatesF := none,
              initArgs := [c, c2, t] }) := by
  intro g c c2 t th ph lm qs
  obtain ⟨k, nm, prep, icb, tq, cq, nqF, nsF, ia⟩ := g
  simp only [PyGate.mk.injEq]
  refine ⟨?_, ?_, ?_, ?_, ?_, ?_, ?_, ?_, ?_, ?_⟩
  · rintro rfl rfl
    exact ⟨rfl, rfl, fun h1 h2 => by
      simp [gateControlledBy, h1, h2]⟩
  · rintro rfl rfl
    exact ⟨rfl, fun h1 => by simp [gateControlledBy, h1]⟩
  · rintro rfl rfl
    exact ⟨rfl, fun h1 => by simp [gateControlledBy, h1]⟩
  · rintro rfl rfl
    exact ⟨rfl, fun h1 => by simp [gateControlledBy, h1]⟩
  · rintro rfl rfl
    exact ⟨rfl, fun h1 => by simp [gateControlledBy, h1]⟩
  · rintro rfl rfl
    exact ⟨rfl, fun h1 => by simp [gateControlledBy, h1]⟩
  · rintro rfl rfl
    exact ⟨rfl, fun h1 => by simp [gateControlledBy, h1]⟩
  · rintro rfl rfl
    exact ⟨rfl, fun h1 => by simp [gateControlledBy, h1]⟩
  · intro hct
    exact ⟨initControlled1_eval _ _ _ _ hct, initControlled1_eval _ _ _ _ hct,
      initControlled1_eval _ _ _ _ hct⟩
  · intro h1 h2 h3
    exact initTOFFOLI_eval c c2 t h1 h2 h3

/-- Witness for C6: controlling `X(0)` by qubit `2` gives `CNOT(2, 0)`, by
`2, 3` gives `TOFFOLI(2, 3, 0)`, and the dedicated constructors succeed
with the expected layout since the controls differ from the target. -/
theorem controlled_by_dispatch_spec_witness :
    ((xGate0.klass = .x ∧ xGate0.targetQubits = [0]) ∧
      (gateControlledBy xGate0 [2] = initCNOT 2 0 ∧
        gateControlledBy xGate0 [2, 3] = initTOFFOLI 2 3 0 ∧
        (([4, 5, 6] : List ℕ).length ≠ 1 → ([4, 5, 6] : List ℕ).length ≠ 2 →
          gateControlledBy xGate0 [4, 5, 6] =
            baseControlledBy xGate0 [4, 5, 6]))) ∧
    ((2 : ℕ) ≠ 0 ∧
      (initCNOT 2 0 =
          .ok
            { klass := .cnot, name := "cx", isPrepared := false,
              isControlledBy := false, targetQubits := [0],
              controlQubits := {2}, nqubitsF := none, nstatesF := none,
              initArgs := [2, 0] } ∧
        initCZ 2 0 =
          .ok
            { klass := .cz, name := "cz", isPrepared := false,
              isControlledBy := false, targetQubits := [0],
              controlQubits := {2}, nqubitsF := none, nstatesF := none,
              initArgs := [2, 0] } ∧
        initCRX 2 0 ⟨1, 0⟩ =
          .ok
            { klass := .crx ⟨1, 0⟩, name := "crx", isPrepared := false,
              isControlledBy := false, targetQubits := [0],
              controlQubits := {2}, nqubitsF := none, nstatesF := none,
              initArgs := [2, 0] })) :=
  ⟨⟨⟨rfl, rfl⟩,
      (controlled_by_dispatch_spec xGate0 2 3 0 ⟨1, 0⟩ ⟨0, 0⟩ ⟨0, 0⟩
        [4, 5, 6]).1 rfl rfl⟩,
    ⟨by decide,
      (controlled_by_dispatch_spec xGate0 2 3 0 ⟨1, 0⟩ ⟨0, 0⟩ ⟨0, 0⟩
        [4, 5, 6]).2.2.2.2.2.2.2.2.1 (by decide)⟩⟩

theorem initSingle_eval (k : GateClass) (nm : String) (t : ℕ) :
    withInitArgs [t] (targetSetter (gateNew k nm) [t]) =
      .ok
        { klass := k, name := nm, isPrepared := false,
          isControlledBy := false, targetQubits := [t], controlQubits := ∅,
          nqubitsF := none, nstatesF := none, initArgs := [t] } := by
  rw [withInitArgs, targetSetter_fresh_single, exMapOk]
  simp [gateNew]

theorem initControlled1_ok {k : GateClass} {nm : String} {q0 q1 : ℕ}
    {ng : PyGate} (h : initControlled1 k nm q0 q1 = .ok ng) :
    ng = { klass := k, name := nm, isPrepared := false, isControlledBy := false, targetQubits := [q1], controlQubits := {q0}, nqubitsF := none, nstatesF := none, initArgs := [q0, q1] } := by
  rw [initControlled1, withInitArgs] at h
  have h1 : controlSetter (gateNew k nm) [q0] =
      .ok { gateNew k nm with controlQubits := [q0].toFinset } :=
    controlSetter_eq_ok.mpr ⟨by simp, by simp [gateNew], rfl⟩
  rw [h1, exBindOk] at h
  cases hts : targetSetter
      { gateNew k nm with controlQubits := [q0].toFinset } [q1] with
  | error e => rw [hts, exMapErr] at h; cases h
  | ok g2 =>
      obtain ⟨_, _, rfl⟩ := targetSetter_eq_ok.mp hts
      rw [hts, exMapOk] at h
      cases h
      simp [gateNew]

theorem gateDagger_fields {g ng g' : PyGate}
    (hu : gateDaggerUnder g = .ok ng) (h : gateDagger g = .ok g') :
    g' = { ng with isControlledBy := g.isControlledBy, controlQubits := g.controlQubits } := by
  rw [gateDagger, hu, exBindOk] at h
  obtain ⟨_, _, rfl⟩ := controlSetter_eq_ok.mp h
  rw [show (controlQubitsProp g).toFinset = g.controlQubits from by
    simp [controlQubitsProp]]

theorem npConjT_eq {m : ℕ} (A : Matrix (Fin m) (Fin m) ℂ) :
    npConjT A = A.conjTranspose := rfl

/-- Claim C5: `dagger()` preserves the control qubits (and the
`is_controlled_by` flag) of the original gate; for the rotation classes
`RX`/`RY`/`RZ`/`U1` and their controlled variants `CRX`/`CRY`/`CRZ`/`CU1`
it returns a gate of the same class on the same qubits with the angle
negated; for the general `Unitary` class the returned gate's matrix is the
conjugate transpose of the original matrix. -/
theorem gate_dagger_spec :
    (∀ g g' : PyGate, gateDagger g = .ok g' →
      g'.controlQubits = g.controlQubits ∧
      g'.isControlledBy = g.isControlledBy) ∧
    (∀ (g g' : PyGate) (t : ℕ) (th : Angle),
      g.klass = .rx th → g.targetQubits = [t] → gateDagger g = .ok g' →
      g'.klass = .rx (Angle.neg th) ∧ g'.targetQubits = [t]) ∧
    (∀ (g g' : PyGate) (t : ℕ) (th : Angle),
      g.klass = .ry th → g.targetQubits = [t] → gateDagger g = .ok g' →
      g'.klass = .ry (Angle.neg th) ∧ g'.targetQubits = [t]) ∧
    (∀ (g g' : PyGate) (t : ℕ) (th : Angle),
      g.klass = .rz th → g.targetQubits = [t] → gateDagger g = .ok g' →
      g'.klass = .rz (Angle.neg th) ∧ g'.targetQubits = [t]) ∧
    (∀ (g g' : PyGate) (t : ℕ) (th : Angle),
      g.klass = .u1 th → g.targetQubits = [t] → gateDagger g = .ok g' →
      g'.klass = .u1 (Angle.neg th) ∧ g'.targetQubits = [t]) ∧
    (∀ (g g' : PyGate) (c t : ℕ) (th : Angle),
      g.klass = .crx th → g.targetQubits = [t] → g.controlQubits = {c} →
      gateDagger g = .ok g' →
      g'.klass = .crx (Angle.neg th) ∧ g'.targetQubits = [t] ∧
        g'.controlQubits = {c}) ∧
    (∀ (g g' : PyGate) (c t : ℕ) (th : Angle),
      g.klass = .cry th → g.targetQubits = [t] → g.controlQubits = {c} →
      gateDagger g = .ok g' →
      g'.klass = .cry (Angle.neg th) ∧ g'.targetQubits = [t] ∧
        g'.controlQubits = {c}) ∧
    (∀ (g g' : PyGate) (c t : ℕ) (th : Angle),
      g.klass = .crz th → g.targetQubits = [t] → g.controlQubits = {c} →
      gateDagger g = .ok g' →
      g'.klass = .crz (Angle.neg th) ∧ g'.targetQubits = [t] ∧
        g'.controlQubits = {c}) ∧
    (∀ (g g' : PyGate) (c t : ℕ) (th : Angle),
      g.klass = .cu1 th → g.targetQubits = [t] → g.controlQubits = {c} →
      gateDagger g = .ok g' →
      g'.klass = .cu1 (Angle.neg th) ∧ g'.targetQubits = [t] ∧
        g'.controlQubits = {c}) ∧
    (∀ (m : ℕ) (g g' : UnitaryPG m), unitaryDagger g = .ok g' →
      g'.matrix = g.matrix.conjTranspose ∧
      g'.controlQubits = g.controlQubits ∧
      g'.targetQubits = g.targetQubits ∧
      g'.isControlledBy = g.isControlledBy) := by
  refine ⟨?_, ?_, ?_, ?_, ?_, ?_, ?_, ?_, ?_, ?_⟩
  · intro g g' h
    cases hu : gateDaggerUnder g with
    | error e => rw [gateDagger, hu, exBindErr] at h; cases h
    | ok ng =>
        have hf := gateDagger_fields hu h
        subst hf
        exact ⟨rfl, rfl⟩
  · intro g g' t th hk ht h
    obtain ⟨k, nm, prep, icb, tq, cq, nqF, nsF, ia⟩ := g
    subst hk; subst ht
    have hu : gateDaggerUnder ⟨.rx th, nm, prep, icb, [t], cq, nqF, nsF, ia⟩
        = initRX t (Angle.neg th) := rfl
    rw [initRX, initSingle_eval] at hu
    have hf := gateDagger_fields hu h
    subst hf
    exact ⟨rfl, rfl⟩
  · intro g g' t th hk ht h
    obtain ⟨k, nm, prep, icb, tq, cq, nqF, nsF, ia⟩ := g
    subst hk; subst ht
    have hu : gateDaggerUnder ⟨.ry th, nm, prep, icb, [t], cq, nqF, nsF, ia⟩
        = initRY t (Angle.neg th) := rfl
    rw [initRY, initSingle_eval] at hu
    have hf := gateDagger_fields hu h
    subst hf
    exact ⟨rfl, rfl⟩
  · intro g g' t th hk ht h
    obtain ⟨k, nm, prep, icb, tq, cq, nqF, nsF, ia⟩ := g
    subst hk; subst ht
    have hu : gateDaggerUnder ⟨.rz th, nm, prep, icb, [t], cq, nqF, nsF, ia⟩
        = initRZ t (Angle.neg th) := rfl
    rw [initRZ, initSingle_eval] at hu
    have hf := gateDagger_fields hu h
    subst hf
    exact ⟨rfl, rfl⟩
  · intro g g' t th hk ht h
    obtain ⟨k, nm, prep, icb, tq, cq, nqF, nsF, ia⟩ := g
    subst hk; subst ht
    have hu : gateDaggerUnder ⟨.u1 th, nm, prep, icb, [t], cq, nqF, nsF, ia⟩
        = initU1 t (Angle.neg th) := rfl
    rw [initU1, initSingle_eval] at hu
    have hf := gateDagger_fields hu h
    subst hf
    exact ⟨rfl, rfl⟩
  · intro g g' c t th hk ht hc h
    obtain ⟨k, nm, prep, icb, tq, cq, nqF, nsF, ia⟩ := g
    subst hk; subst ht; subst hc
    have e1 : controlQubitsProp
        ⟨.crx th, nm, prep, icb, [t], {c}, nqF, nsF, ia⟩ = [c] := by
      simp [controlQubitsProp]
    have hu : gateDaggerUnder
        ⟨.crx th, nm, prep, icb, [t], {c}, nqF, nsF, ia⟩ =
        initCRX ((controlQubitsProp
          ⟨.crx th, nm, prep, icb, [t], {c}, nqF, nsF, ia⟩).getD 0 0) t
          (Angle.neg th) := rfl
    rw [e1] at hu
    replace hu : gateDaggerUnder
        ⟨.crx th, nm, prep, icb, [t], {c}, nqF, nsF, ia⟩ =
        initCRX c t (Angle.neg th) := hu
    cases hi : initCRX c t (Angle.neg th) with
    | error e =>
        rw [gateDagger, hu, hi, exBindErr] at h; cases h
    | ok ng =>
        have hng := initControlled1_ok
          (show initControlled1 (.crx (Angle.neg th)) "crx" c t = .ok ng
            from hi)
        subst hng
        have hf := gateDagger_fields (hu.trans hi) h
        subst hf
        exact ⟨rfl, rfl, rfl⟩
  · intro g g' c t th hk ht hc h
    obtain ⟨k, nm, prep, icb, tq, cq, nqF, nsF, ia⟩ := g
    subst hk; subst ht; subst hc
    have e1 : controlQubitsProp
        ⟨.cry th, nm, prep, icb, [t], {c}, nqF, nsF, ia⟩ = [c] := by
      simp [controlQubitsProp]
    have hu : gateDaggerUnder
        ⟨.cry th, nm, prep, icb, [t], {c}, nqF, nsF, ia⟩ =
        initCRY ((controlQubitsProp
          ⟨.cry th, nm, prep, icb, [t], {c}, nqF, nsF, ia⟩).getD 0 0) t
          (Angle.neg th) := rfl
    rw [e1] at hu
    replace hu : gateDaggerUnder
        ⟨.cry th, nm, prep, icb, [t], {c}, nqF, nsF, ia⟩ =
        initCRY c t (Angle.neg th) := hu
    cases hi : initCRY c t (Angle.neg th) with
    | error e =>
        rw [gateDagger, hu, hi, exBindErr] at h; cases h
    | ok ng =>
        have hng := initControlled1_ok
          (show initControlled1 (.cry (Angle.neg th)) "cry" c t = .ok ng
            from hi)
        subst hng
        have hf := gateDagger_fields (hu.trans hi) h
        subst hf
        exact ⟨rfl, rfl, rfl⟩
  · intro g g' c t th hk ht hc h
    obtain ⟨k, nm, prep, icb, tq, cq, nqF, nsF, ia⟩ := g
    subst hk; subst ht; subst hc
    have e1 : controlQubitsProp
        ⟨.crz th, nm, prep, icb, [t], {c}, nqF, nsF, ia⟩ = [c] := by
      simp [controlQubitsProp]
    have hu : gateDaggerUnder
        ⟨.crz th, nm, prep, icb, [t], {c}, nqF, nsF, ia⟩ =
        initCRZ ((controlQubitsProp
          ⟨.crz th, nm, prep, icb, [t], {c}, nqF, nsF, ia⟩).getD 0 0) t
          (Angle.neg th) := rfl
    rw [e1] at hu
    replace hu : gateDaggerUnder
        ⟨.crz th, nm, prep, icb, [t], {c}, nqF, nsF, ia⟩ =
        initCRZ c t (Angle.neg th) := hu
    cases hi : initCRZ c t (Angle.neg th) with
    | error e =>
        rw [gateDagger, hu, hi, exBindErr] at h; cases h
    | ok ng =>
        have hng := initControlled1_ok
          (show initControlled1 (.crz (Angle.neg th)) "crz" c t = .ok ng
            from hi)
        subst hng
        have hf := gateDagger_fields (hu.trans hi) h
        subst hf
        exact ⟨rfl, rfl, rfl⟩
  · intro g g' c t th hk ht hc h
    obtain ⟨k, nm, prep, icb, tq, cq, nqF, nsF, ia⟩ := g
    subst hk; subst ht; subst hc
    have e1 : controlQubitsProp
        ⟨.cu1 th, nm, prep, icb, [t], {c}, nqF, nsF, ia⟩ = [c] := by
      simp [controlQubitsProp]
    have hu : gateDaggerUnder
        ⟨.cu1 th, nm, prep, icb, [t], {c}, nqF, nsF, ia⟩ =
        initCU1 ((controlQubitsProp
          ⟨.cu1 th, nm, prep, icb, [t], {c}, nqF, nsF, ia⟩).getD 0 0) t
          (Angle.neg th) := rfl
    rw [e1] at hu
    replace hu : gateDaggerUnder
        ⟨.cu1 th, nm, prep, icb, [t], {c}, nqF, nsF, ia⟩ =
        initCU1 c t (Angle.neg th) := hu
    cases hi : initCU1 c t (Angle.neg th) with
    | error e =>
        rw [gateDagger, hu, hi, exBindErr] at h; cases h
    | ok ng =>
        have hng := initControlled1_ok
          (show initControlled1 (.cu1 (Angle.neg th)) "cu1" c t = .ok ng
            from hi)
        subst hng
        have hf := gateDagger_fields (hu.trans hi) h
        subst hf
        exact ⟨rfl, rfl, rfl⟩
  · intro m g g' h
    rw [unitaryDagger, unitaryControlSetter] at h
    split at h
    · cases h
    · split at h
      · cases h
      · cases h
        refine ⟨rfl, ?_, rfl, rfl⟩
        show ((g.controlQubits.sort (· ≤ ·)).toFinset) = g.controlQubits
        simp [Finset.sort_toFinset]

/-- Witness for C5: the dagger of `CRX(0, 1, 1.0)` is `CRX(0, 1, -1.0)` —
same class, same control and target qubits, negated angle. -/
theorem gate_dagger_spec_witness :
    (crxGate01.klass = .crx ⟨1, 0⟩ ∧ crxGate01.targetQubits = [1] ∧
      crxGate01.controlQubits = {0} ∧
      gateDagger crxGate01 =
        .ok
{ klass := .crx (Angle.neg ⟨1, 0⟩), name := "crx", isPrepared := false, isControlledBy := false, targetQubits := [1], controlQubits := {0}, nqubitsF := none, nstatesF := none, initArgs := [0, 1] }) ∧
    (({ klass := .crx (Angle.neg ⟨1, 0⟩), name := "crx", isPrepared := false, isControlledBy := false, targetQubits := [1], controlQubits := {0}, nqubitsF := none, nstatesF := none, initArgs := [0, 1] } : PyGate).klass = .crx (Angle.neg ⟨1, 0⟩) ∧
      ({ klass := .crx (Angle.neg ⟨1, 0⟩), name := "crx", isPrepared := false, isControlledBy := false, targetQubits := [1], controlQubits := {0}, nqubitsF := none, nstatesF := none, initArgs := [0, 1] } : PyGate).targetQubits = [1] ∧
      ({ klass := .crx (Angle.neg ⟨1, 0⟩), name := "crx", isPrepared := false, isControlledBy := false, targetQubits := [1], controlQubits := {0}, nqubitsF := none, nstatesF := none, initArgs := [0, 1] } : PyGate).controlQubits = {0}) := by
  have hdag : gateDagger crxGate01 =
      .ok { klass := .crx (Angle.neg ⟨1, 0⟩), name := "crx", isPrepared := false, isControlledBy := false, targetQubits := [1], controlQubits := {0}, nqubitsF := none, nstatesF := none, initArgs := [0, 1] } := by
    have e1 : controlQubitsProp crxGate01 = [0] := by
      simp [controlQubitsProp, crxGate01]
    have hu : gateDaggerUnder crxGate01 =
        initCRX ((controlQubitsProp crxGate01).getD 0 0) 1
          (Angle.neg ⟨1, 0⟩) := rfl
    rw [gateDagger, hu, e1]
    decide
  exact ⟨⟨rfl, rfl, rfl, hdag⟩,
    gate_dagger_spec.2.2.2.2.2.1 crxGate01 _ 0 1 ⟨1, 0⟩ rfl rfl rfl hdag⟩

theorem svLoop_eq_fired {d : ℕ} {R : Type} [CommRing R] (rand : ℕ → ℚ) :
    ∀ (l : List (ℚ × Matrix (Fin d) (Fin d) R)) (k : ℕ) (v : Fin d → R),
      svLoop rand k l v =
        ((firedList rand k l).reverse.prod).mulVec v := by
  intro l
  induction l with
  | nil =>
      intro k v
      simp [svLoop, firedList, Matrix.one_mulVec]
  | cons pU rest ih =>
      intro k v
      obtain ⟨p, U⟩ := pU
      by_cases h : rand k < p
      · simp only [svLoop, firedList, if_pos h]
        rw [ih, List.reverse_append]
        simp [Matrix.mulVec_mulVec]
      · simp only [svLoop, firedList, if_neg h]
        rw [ih]
        simp

/-- Claim C4: in state-vector mode a `UnitaryChannel` consumes one uniform
draw per branch in branch order, and the result is the composition (matrix
product, first branch applied first) of exactly those branch unitaries whose
draw satisfied `r_k < p_k`; the branches are independent trials, so a
branch fires exactly when its own draw passes, regardless of the other
branches. -/
theorem state_vector_call_spec {d : ℕ} {R : Type} [CommRing R]
    (rand : ℕ → ℚ) (ps : List ℚ) (Us : List (Matrix (Fin d) (Fin d) R))
    (v : Fin d → R) :
    stateVectorCall rand ps Us v =
      ((firedList rand 0 (ps.zip Us)).reverse.prod).mulVec v :=
  svLoop_eq_fired rand (ps.zip Us) 0 v

theorem applyDM_restore {d : ℕ} {R : Type} [CommRing R] [StarRing R]
    {U : Matrix (Fin d) (Fin d) R} (hU : U.conjTranspose * U = 1)
    (rho : Matrix (Fin d) (Fin d) R) :
    applyDM U.conjTranspose (applyDM U rho) = rho := by
  unfold applyDM
  have h1 : U.conjTranspose * (U * rho * U.conjTranspose) *
      U.conjTranspose.conjTranspose =
      (U.conjTranspose * U) * rho * (U.conjTranspose * U) := by
    rw [Matrix.conjTranspose_conjTranspose]
    simp only [Matrix.mul_assoc]
  rw [h1, hU, Matrix.one_mul, Matrix.mul_one]

theorem setLastNone_getLast {α : Type} :
    ∀ l : List (Option α), l ≠ [] → (setLastNone l).getLast? = some none := by
  intro l
  induction l with
  | nil => intro h; exact absurd rfl h
  | cons a rest ih =>
      intro _
      cases rest with
      | nil => rfl
      | cons b t =>
          have h2 := ih (by simp)
          rw [show setLastNone (a :: b :: t) = a :: setLastNone (b :: t)
            from rfl]
          cases t with
          | nil => rfl
          | cons c tl =>
              rw [show setLastNone (b :: c :: tl) =
                b :: setLastNone (c :: tl) from rfl] at h2
              rw [show (a :: setLastNone (b :: c :: tl)).getLast? =
                (a :: (b :: setLastNone (c :: tl))).getLast? from rfl]
              rw [List.getLast?_cons_cons]
              exact h2

theorem dmLoop_invert {d : ℕ} {R : Type} [CommRing R] [StarRing R]
    [Algebra ℚ R] :
    ∀ (Us : List (Matrix (Fin d) (Fin d) R)) (ps : List ℚ)
      (rho acc : Matrix (Fin d) (Fin d) R),
      ps.length = Us.length →
      (∀ U ∈ Us, U.conjTranspose * U = 1) →
      dmLoop (zip3 ps Us (invertChain Us)) rho acc =
        acc + ((ps.zip Us).map fun pU =>
          algebraMap ℚ R pU.1 • applyDM pU.2 rho).sum := by
  intro Us
  induction Us with
  | nil =>
      intro ps rho acc hlen hU
      have hps : ps = [] := List.length_eq_zero.mp (by simpa using hlen)
      subst hps
      simp [zip3, invertChain, setLastNone, dmLoop]
  | cons U tail ih =>
      intro ps rho acc hlen hU
      cases ps with
      | nil => simp at hlen
      | cons p pt =>
          cases tail with
          | nil =>
              have hpt : pt = [] := List.length_eq_zero.mp (by simpa using hlen)
              subst hpt
              show dmLoop [(p, U, none)] rho acc = _
              rw [show dmLoop [(p, U, none)] rho acc =
                acc + algebraMap ℚ R p • applyDM U rho from rfl]
              simp
          | cons U2 rest =>
              rw [show zip3 (p :: pt) (U :: U2 :: rest)
                  (invertChain (U :: U2 :: rest)) =
                (p, U, some U.conjTranspose) ::
                  zip3 pt (U2 :: rest) (invertChain (U2 :: rest)) from rfl]
              rw [show dmLoop ((p, U, some U.conjTranspose) ::
                  zip3 pt (U2 :: rest) (invertChain (U2 :: rest))) rho acc =
                dmLoop (zip3 pt (U2 :: rest) (invertChain (U2 :: rest)))
                  (applyDM U.conjTranspose (applyDM U rho))
                  (acc + algebraMap ℚ R p • applyDM U rho) from rfl]
              rw [applyDM_restore (hU U (by simp)) rho]
              rw [ih pt rho (acc + algebraMap ℚ R p • applyDM U rho)
                (by simpa using hlen) (fun V hV => hU V (by simp [hV]))]
              simp [add_assoc]

/-- Claim C2: with unitary branch operators, the density-matrix call of a
`UnitaryChannel` returns exactly `(1 - Σ p_k) ρ + Σ p_k U_k ρ U_k†`: each
operator is applied, the weighted term accumulated, and the inverse
(dagger) operator restores `ρ` before the next term — except after the last
term, whose inversion gate `prepare` replaced by `None`. -/
theorem density_matrix_call_spec {d : ℕ} {R : Type} [CommRing R]
    [StarRing R] [Algebra ℚ R] (ps : List ℚ)
    (Us : List (Matrix (Fin d) (Fin d) R)) (rho : Matrix (Fin d) (Fin d) R)
    (hlen : ps.length = Us.length)
    (hU : ∀ U ∈ Us, U.conjTranspose * U = 1) :
    densityMatrixCall ps Us rho = dmWeightedSum ps Us rho ∧
      (Us ≠ [] → (invertChain Us).getLast? = some none) := by
  constructor
  · exact dmLoop_invert Us ps rho _ hlen hU
  · intro h
    exact setLastNone_getLast _ (by simpa using h)

/-- Witness for C2: the one-branch channel with probability `1/2` and the
identity unitary on one qubit dimension, applied to the identity density
matrix. -/
theorem density_matrix_call_spec_witness :
    (([1/2] : List ℚ).length =
        ([(1 : Matrix (Fin 1) (Fin 1) ℚ)]).length ∧
      (∀ U ∈ [(1 : Matrix (Fin 1) (Fin 1) ℚ)],
        U.conjTranspose * U = 1)) ∧
    (densityMatrixCall [1/2] [(1 : Matrix (Fin 1) (Fin 1) ℚ)] 1 =
        dmWeightedSum [1/2] [(1 : Matrix (Fin 1) (Fin 1) ℚ)] 1 ∧
      (([(1 : Matrix (Fin 1) (Fin 1) ℚ)] :
          List (Matrix (Fin 1) (Fin 1) ℚ)) ≠ [] →
        (invertChain [(1 : Matrix (Fin 1) (Fin 1) ℚ)]).getLast? =
          some none)) :=
  ⟨⟨rfl, by simp⟩,
    density_matrix_call_spec [1/2] [(1 : Matrix (Fin 1) (Fin 1) ℚ)] 1 rfl
      (by simp)⟩
